import Mathlib

/-!
Verification of the answer-evaluation engine of the GCSE Mandarin assistant.

The repository contains two copies of the rule-based scorer:
* a server-side copy in `netlify/functions/generate.ts` (namespace `Generate` below), and
* a client-side copy in `app/student/vocab/page.tsx` (namespace `VocabPage` below).

Strings are modelled as `List Char`; JavaScript `String.prototype.trim`,
the character-class regexes and the array/string `includes`/`some` tests are
translated directly.
-/

/-- The whitespace predicate of JavaScript `String.prototype.trim`
(ECMAScript WhiteSpace and LineTerminator code points). -/
def isJsWhitespaceChar (c : Char) : Bool :=
  c.toNat ∈ [0x09, 0x0A, 0x0B, 0x0C, 0x0D, 0x20, 0xA0, 0x1680,
    0x2000, 0x2001, 0x2002, 0x2003, 0x2004, 0x2005, 0x2006, 0x2007,
    0x2008, 0x2009, 0x200A, 0x2028, 0x2029, 0x202F, 0x205F, 0x3000, 0xFEFF]

/-- JavaScript `s.trim()`: strip leading and trailing whitespace. -/
def jsTrim (s : List Char) : List Char :=
  ((s.dropWhile isJsWhitespaceChar).reverse.dropWhile isJsWhitespaceChar).reverse

/-- The regex `/[一-鿿]/` used by `extractChineseChars` in both copies. -/
def isChineseChar (c : Char) : Bool :=
  0x4E00 ≤ c.toNat && c.toNat ≤ 0x9FFF

/-- `extractChineseChars` (identical in both copies): keep exactly the
characters in the Unicode range U+4E00 - U+9FFF, in order. -/
def extractChineseChars (s : List Char) : List Char :=
  s.filter isChineseChar

/-- The punctuation character class of the regex in `extractPunctuation`
(identical in both copies): CJK punctuation plus ASCII punctuation.
The quote characters in the source regex are the ASCII ones (U+0022, U+0027). -/
def punctuationChars : List Char :=
  ['，', '。', '！', '？', '；', '：', '、', '\"', '\'',
   '（', '）', '【', '】', '《', '》',
   ',', '.', '!', '?', ';', ':', '-', '(', ')', '[', ']', '\x7b', '\x7d']

/-- Character-level test of the punctuation regex. -/
def isPunctuationChar (c : Char) : Bool :=
  punctuationChars.contains c

/-- `extractPunctuation` (identical in both copies): the order-preserving list
of punctuation characters of the input. -/
def extractPunctuation (s : List Char) : List Char :=
  s.filter isPunctuationChar

/-- The result record `{score, feedback}` produced by the evaluator. -/
structure EvalResult where
  score : Nat
  feedback : String
deriving DecidableEq, Repr

/-- `score` is one of the five partial-credit values. -/
def validScore (n : Nat) : Prop :=
  n = 0 ∨ n = 25 ∨ n = 50 ∨ n = 75 ∨ n = 100

namespace Generate

/-- Server-side `calculateRuleBasedScore` from `netlify/functions/generate.ts`.
The named booleans of the source (`charsMatch`, `hasOverlap`,
`hasCorrectPunctuation`, `allPunctuationDifferent`, `noPunctuationInCorrect`)
are inlined at their use sites, with their defining conditions kept verbatim. -/
def calculateRuleBasedScore (correctAnswer studentAnswer : List Char) : EvalResult :=
  let correct := jsTrim correctAnswer
  let student := jsTrim studentAnswer
  if correct = student then
    { score := 100, feedback := "Perfect! Your answer is exactly correct." }
  else
    let correctChars := extractChineseChars correct
    let studentChars := extractChineseChars student
    let correctPunctuation := extractPunctuation correct
    let studentPunctuation := extractPunctuation student
    -- charsMatch := correctChars === studentChars
    if correctChars = studentChars then
      -- noPunctuationInCorrect := correctPunctuation.length === 0
      if correctPunctuation.length = 0 then
        if studentPunctuation.length = 0 then
          { score := 100, feedback := "Perfect! Your answer is correct." }
        else
          { score := 75,
            feedback := "Excellent! Your Chinese characters are correct, but you have extra punctuation that should be removed." }
      -- hasCorrectPunctuation := correctPunctuation.length > 0 && some shared
      else if correctPunctuation.length > 0 ∧ ∃ p ∈ correctPunctuation, p ∈ studentPunctuation then
        { score := 75,
          feedback := "Great! Your Chinese characters are correct and you have some correct punctuation. Just need to match all punctuation exactly." }
      -- allPunctuationDifferent := correctPunctuation.length > 0 && none shared
      else if correctPunctuation.length > 0 ∧ ¬ ∃ p ∈ correctPunctuation, p ∈ studentPunctuation then
        { score := 50,
          feedback := "Good! Your Chinese characters are correct, but the punctuation needs to match the correct answer." }
      else
        { score := 75,
          feedback := "Excellent! Your Chinese characters are correct. Check the punctuation carefully." }
    -- hasOverlap := both non-empty && at least one shared character
    else if correctChars.length > 0 ∧ studentChars.length > 0 ∧ ∃ c ∈ correctChars, c ∈ studentChars then
      { score := 25,
        feedback := "You have some correct characters, but the answer needs more work. Keep practicing!" }
    else
      { score := 0,
        feedback := "The answer is incorrect. Please review the correct answer and try again." }

end Generate

namespace VocabPage

/-- Client-side `calculateRuleBasedScore` from `app/student/vocab/page.tsx`.
Identical to the server copy except that its `charsMatch` is
`correctChars.length > 0 && correctChars === studentChars`, and the feedback
strings are shorter. -/
def calculateRuleBasedScore (correctAnswer studentAnswer : List Char) : EvalResult :=
  let correct := jsTrim correctAnswer
  let student := jsTrim studentAnswer
  if correct = student then
    { score := 100, feedback := "Perfect! Your answer is exactly correct." }
  else
    let correctChars := extractChineseChars correct
    let studentChars := extractChineseChars student
    let correctPunctuation := extractPunctuation correct
    let studentPunctuation := extractPunctuation student
    -- charsMatch := correctChars.length > 0 && correctChars === studentChars
    if correctChars.length > 0 ∧ correctChars = studentChars then
      if correctPunctuation.length = 0 then
        if studentPunctuation.length = 0 then
          { score := 100, feedback := "Perfect! Your answer is correct." }
        else
          { score := 75,
            feedback := "Excellent! Your Chinese characters are correct, but you have extra punctuation." }
      else if correctPunctuation.length > 0 ∧ ∃ p ∈ correctPunctuation, p ∈ studentPunctuation then
        { score := 75,
          feedback := "Great! Your Chinese characters are correct and you have some correct punctuation." }
      else if correctPunctuation.length > 0 ∧ ¬ ∃ p ∈ correctPunctuation, p ∈ studentPunctuation then
        { score := 50,
          feedback := "Good! Your Chinese characters are correct, but the punctuation needs work." }
      else
        { score := 75, feedback := "Excellent! Your Chinese characters are correct." }
    else if correctChars.length > 0 ∧ studentChars.length > 0 ∧ ∃ c ∈ correctChars, c ∈ studentChars then
      { score := 25, feedback := "You have some correct characters, but the answer needs more work." }
    else
      { score := 0, feedback := "Review the correct answer and try again." }

/-- Client-side `evaluateAnswer` from `app/student/vocab/page.tsx`:
binary scoring when `questionType === 'quiz'`, otherwise the local rule-based
engine. The `_question` argument is kept for signature compatibility and never
used; the `catch` branch of the source is unreachable because the body is a
pure computation. -/
def evaluateAnswer (q correctAnswer studentAnswer : List Char)
    (questionType : Option String) : EvalResult :=
  if questionType = some "quiz" then
    if jsTrim correctAnswer = jsTrim studentAnswer then
      { score := 100, feedback := "Correct! Great job!" }
    else
      { score := 0, feedback := "Incorrect." }
  else
    calculateRuleBasedScore correctAnswer studentAnswer

end VocabPage

namespace Generate

/-- Outcome of the optional Gemini feedback-enhancement call in the
`evaluateAnswer` action of the Netlify handler: the API key may be missing
(the call is skipped), the call may throw or time out (caught and ignored),
or it may return a text. -/
inductive AiFeedback where
  | noKey
  | failed
  | ok (text : String)
deriving DecidableEq

/-- JavaScript `trim` on a Lean `String`. -/
def jsTrimString (s : String) : String :=
  (jsTrim s.data).asString

/-- `finalFeedback` computation of the handler: start from the rule-based
feedback and replace it with the AI text only when the call succeeded and the
trimmed text is non-empty (`if (aiResponse && aiResponse.trim())`). -/
def enhanceFeedback (base : String) (ai : AiFeedback) : String :=
  match ai with
  | .ok t => if jsTrimString t ≠ "" then jsTrimString t else base
  | .noKey => base
  | .failed => base

/-- The `ruleBasedResult` computed by the `evaluateAnswer` action of the
handler: binary scoring when `questionType === 'quiz'`, otherwise the
server-side rule-based scorer. -/
def ruleBasedResultFor (correctAnswer studentAnswer : List Char)
    (questionType : Option String) : EvalResult :=
  if questionType = some "quiz" then
    if jsTrim correctAnswer = jsTrim studentAnswer then
      { score := 100, feedback := "Correct! Great job!" }
    else
      { score := 0, feedback := "Incorrect. Please review the correct answer and try again." }
  else
    calculateRuleBasedScore correctAnswer studentAnswer

/-- Observable outcome of the `evaluateAnswer` action: a client error with its
status code and message, or a 200 response carrying `{result: {score, feedback}}`. -/
inductive HandlerResult where
  | clientError (statusCode : Nat) (error : String)
  | ok (score : Nat) (feedback : String)
deriving DecidableEq, Repr

/-- The `evaluateAnswer` action of the Netlify handler. A missing JSON field is
`none`; the guard is `!question || correctAnswer === undefined ||
studentAnswer === undefined`, so an absent or empty `question` is rejected,
while empty-string answers pass. -/
def evaluateAnswerHandler (question correctAnswer studentAnswer : Option (List Char))
    (questionType : Option String) (ai : AiFeedback) : HandlerResult :=
  if question = none ∨ question = some [] ∨ correctAnswer = none ∨ studentAnswer = none then
    .clientError 400 "Missing required parameters: question, correctAnswer, studentAnswer"
  else
    let ruleBasedResult := ruleBasedResultFor (correctAnswer.getD []) (studentAnswer.getD []) questionType
    .ok ruleBasedResult.score (enhanceFeedback ruleBasedResult.feedback ai)

/-- The numeric score of a handler outcome, when one was produced. -/
def HandlerResult.scoreOf : HandlerResult → Option Nat
  | .ok s _ => some s
  | .clientError _ _ => none

end Generate

/-- Transcribed from the claim wording (C3): the FreeText score table for
answers whose trimmed forms are not exactly equal, written independently of
the two implementations so that each can be compared against it. -/
def claimFreeTextScore (correctAnswer studentAnswer : List Char) : Nat :=
  let cc := extractChineseChars (jsTrim correctAnswer)
  let sc := extractChineseChars (jsTrim studentAnswer)
  let cp := extractPunctuation (jsTrim correctAnswer)
  let sp := extractPunctuation (jsTrim studentAnswer)
  if cc = sc ∧ cp = [] ∧ sp = [] then 100
  else if cc = sc ∧ cp = [] ∧ sp ≠ [] then 75
  else if cc = sc ∧ ∃ p ∈ cp, p ∈ sp then 75
  else if cc = sc ∧ cp ≠ [] ∧ ¬ ∃ p ∈ cp, p ∈ sp then 50
  else if cc ≠ sc ∧ cc ≠ [] ∧ sc ≠ [] ∧ ∃ c ∈ cc, c ∈ sc then 25
  else 0

/-- The canonical feedback strings of the server-side rule-based scorer. -/
def serverFeedbackMessages : List String :=
  ["Perfect! Your answer is exactly correct.",
   "Perfect! Your answer is correct.",
   "Excellent! Your Chinese characters are correct, but you have extra punctuation that should be removed.",
   "Great! Your Chinese characters are correct and you have some correct punctuation. Just need to match all punctuation exactly.",
   "Good! Your Chinese characters are correct, but the punctuation needs to match the correct answer.",
   "Excellent! Your Chinese characters are correct. Check the punctuation carefully.",
   "You have some correct characters, but the answer needs more work. Keep practicing!",
   "The answer is incorrect. Please review the correct answer and try again."]

/-- The canonical feedback strings of the client-side rule-based scorer. -/
def clientFeedbackMessages : List String :=
  ["Perfect! Your answer is exactly correct.",
   "Perfect! Your answer is correct.",
   "Excellent! Your Chinese characters are correct, but you have extra punctuation.",
   "Great! Your Chinese characters are correct and you have some correct punctuation.",
   "Good! Your Chinese characters are correct, but the punctuation needs work.",
   "Excellent! Your Chinese characters are correct.",
   "You have some correct characters, but the answer needs more work.",
   "Review the correct answer and try again."]

section Helpers

/-- `jsTrim` only removes characters, so it yields a sublist. -/
theorem jsTrim_sublist (s : List Char) : List.Sublist (jsTrim s) s := by
  have h1 : List.Sublist (s.dropWhile isJsWhitespaceChar) s := List.dropWhile_sublist _
  have h2 : List.Sublist ((s.dropWhile isJsWhitespaceChar).reverse.dropWhile isJsWhitespaceChar)
      ((s.dropWhile isJsWhitespaceChar).reverse) := List.dropWhile_sublist _
  have h3 := h2.reverse
  simp only [List.reverse_reverse] at h3
  exact h3.trans h1

/-- An answer without ideographs also has none after trimming. -/
theorem extractChineseChars_jsTrim_nil {s : List Char}
    (h : extractChineseChars s = []) : extractChineseChars (jsTrim s) = [] := by
  have h2 : List.Sublist (extractChineseChars (jsTrim s)) (extractChineseChars s) :=
    (jsTrim_sublist s).filter isChineseChar
  rw [h] at h2
  exact List.sublist_nil.mp h2

/-- When the trimmed answers are equal the server scorer returns the exact-match result. -/
theorem server_score_exact (ca sa : List Char) (h : jsTrim ca = jsTrim sa) :
    Generate.calculateRuleBasedScore ca sa =
      { score := 100, feedback := "Perfect! Your answer is exactly correct." } := by
  simp [Generate.calculateRuleBasedScore, h]

/-- When the trimmed answers are equal the client scorer returns the exact-match result. -/
theorem client_score_exact (ca sa : List Char) (h : jsTrim ca = jsTrim sa) :
    VocabPage.calculateRuleBasedScore ca sa =
      { score := 100, feedback := "Perfect! Your answer is exactly correct." } := by
  simp [VocabPage.calculateRuleBasedScore, h]

set_option maxHeartbeats 2000000 in
/-- On trimmed-unequal inputs, the server scorer computes exactly the score
table transcribed from the claim. -/
theorem server_score_eq_claim (ca sa : List Char) (h : ¬ jsTrim ca = jsTrim sa) :
    (Generate.calculateRuleBasedScore ca sa).score = claimFreeTextScore ca sa := by
  by_cases hm : extractChineseChars (jsTrim ca) = extractChineseChars (jsTrim sa) <;>
  by_cases hcp : extractPunctuation (jsTrim ca) = [] <;>
  by_cases hsp : extractPunctuation (jsTrim sa) = [] <;>
  by_cases hex : ∃ p ∈ extractPunctuation (jsTrim ca), p ∈ extractPunctuation (jsTrim sa) <;>
  by_cases hcc : extractChineseChars (jsTrim ca) = [] <;>
  by_cases hsc : extractChineseChars (jsTrim sa) = [] <;>
  by_cases hov : ∃ c ∈ extractChineseChars (jsTrim ca), c ∈ extractChineseChars (jsTrim sa) <;>
  simp_all [Generate.calculateRuleBasedScore, claimFreeTextScore,
    List.length_eq_zero, List.length_pos, gt_iff_lt] <;>
  (split <;> simp_all)

set_option maxHeartbeats 2000000 in
/-- On trimmed-unequal inputs, the client scorer computes the claim's score
table except that it returns 0 whenever both ideograph extractions are empty. -/
theorem client_score_eq (ca sa : List Char) (h : ¬ jsTrim ca = jsTrim sa) :
    (VocabPage.calculateRuleBasedScore ca sa).score =
      if extractChineseChars (jsTrim ca) = [] ∧ extractChineseChars (jsTrim sa) = [] then 0
      else claimFreeTextScore ca sa := by
  by_cases hm : extractChineseChars (jsTrim ca) = extractChineseChars (jsTrim sa) <;>
  by_cases hcp : extractPunctuation (jsTrim ca) = [] <;>
  by_cases hsp : extractPunctuation (jsTrim sa) = [] <;>
  by_cases hex : ∃ p ∈ extractPunctuation (jsTrim ca), p ∈ extractPunctuation (jsTrim sa) <;>
  by_cases hcc : extractChineseChars (jsTrim ca) = [] <;>
  by_cases hsc : extractChineseChars (jsTrim sa) = [] <;>
  by_cases hov : ∃ c ∈ extractChineseChars (jsTrim ca), c ∈ extractChineseChars (jsTrim sa) <;>
  simp_all [VocabPage.calculateRuleBasedScore, claimFreeTextScore,
    List.length_eq_zero, List.length_pos, gt_iff_lt] <;>
  (split <;> simp_all)

/-- For ideograph-free answers the claim's score table only yields 100, 75 or 50. -/
theorem claimFreeTextScore_no_ideographs (ca sa : List Char)
    (hcc : extractChineseChars (jsTrim ca) = [])
    (hsc : extractChineseChars (jsTrim sa) = []) :
    claimFreeTextScore ca sa = 100 ∨ claimFreeTextScore ca sa = 75 ∨
      claimFreeTextScore ca sa = 50 := by
  by_cases hcp : extractPunctuation (jsTrim ca) = [] <;>
  by_cases hsp : extractPunctuation (jsTrim sa) = [] <;>
  by_cases hex : ∃ p ∈ extractPunctuation (jsTrim ca), p ∈ extractPunctuation (jsTrim sa) <;>
  simp_all [claimFreeTextScore]

/-- The server scorer only emits the five partial-credit values. -/
theorem server_validScore (ca sa : List Char) :
    validScore (Generate.calculateRuleBasedScore ca sa).score := by
  simp only [Generate.calculateRuleBasedScore]
  split_ifs <;> simp [validScore]

/-- The client scorer only emits the five partial-credit values. -/
theorem client_validScore (ca sa : List Char) :
    validScore (VocabPage.calculateRuleBasedScore ca sa).score := by
  simp only [VocabPage.calculateRuleBasedScore]
  split_ifs <;> simp [validScore]

/-- The handler's rule-based result only emits the five partial-credit values. -/
theorem ruleBasedResultFor_validScore (ca sa : List Char) (qt : Option String) :
    validScore (Generate.ruleBasedResultFor ca sa qt).score := by
  unfold Generate.ruleBasedResultFor
  split_ifs <;> first | exact server_validScore ca sa | simp [validScore]

/-- The client `evaluateAnswer` only emits the five partial-credit values. -/
theorem evaluateAnswer_validScore (q ca sa : List Char) (qt : Option String) :
    validScore (VocabPage.evaluateAnswer q ca sa qt).score := by
  unfold VocabPage.evaluateAnswer
  split_ifs <;> first | exact client_validScore ca sa | simp [validScore]

/-- The server scorer's feedback is always one of its canonical messages. -/
theorem server_feedback_mem (ca sa : List Char) :
    (Generate.calculateRuleBasedScore ca sa).feedback ∈ serverFeedbackMessages := by
  simp only [Generate.calculateRuleBasedScore]
  split_ifs <;> simp [serverFeedbackMessages]

/-- The client scorer's feedback is always one of its canonical messages. -/
theorem client_feedback_mem (ca sa : List Char) :
    (VocabPage.calculateRuleBasedScore ca sa).feedback ∈ clientFeedbackMessages := by
  simp only [VocabPage.calculateRuleBasedScore]
  split_ifs <;> simp [clientFeedbackMessages]

/-- With a present, non-empty question and both answers present, the handler
returns a 200 result whose score is the rule-based score and whose feedback is
the (possibly enhanced) rule-based feedback. -/
theorem handler_ok_of_question_nonempty (q ca sa : List Char) (qt : Option String)
    (ai : Generate.AiFeedback) (hq : q ≠ []) :
    Generate.evaluateAnswerHandler (some q) (some ca) (some sa) qt ai =
      Generate.HandlerResult.ok (Generate.ruleBasedResultFor ca sa qt).score
        (Generate.enhanceFeedback (Generate.ruleBasedResultFor ca sa qt).feedback ai) := by
  unfold Generate.evaluateAnswerHandler
  rw [if_neg]
  · rfl
  · simp [hq]

end Helpers

/-- Claim C1 counterexample: the two copies of `calculateRuleBasedScore` are
NOT equal as score functions. On `("a", "b")` (no ideographs, no punctuation,
trimmed forms unequal) the server copy scores 100 while the client copy
scores 0, because only the client guards `charsMatch` with
`correctChars.length > 0`. -/
theorem C1_counterexample :
    (Generate.calculateRuleBasedScore ['a'] ['b']).score ≠
      (VocabPage.calculateRuleBasedScore ['a'] ['b']).score := by decide

/-- Claim C1, amended: the server-side and client-side copies of
`calculateRuleBasedScore` return the same score exactly when the trimmed
answers are equal or at least one of the two ideograph extractions is
non-empty; on ideograph-free unequal answers they always disagree. -/
theorem C1_two_copies_agree_iff (ca sa : List Char) :
    ((Generate.calculateRuleBasedScore ca sa).score =
        (VocabPage.calculateRuleBasedScore ca sa).score) ↔
      (jsTrim ca = jsTrim sa ∨ extractChineseChars (jsTrim ca) ≠ [] ∨
        extractChineseChars (jsTrim sa) ≠ []) := by
  by_cases h : jsTrim ca = jsTrim sa
  · simp [server_score_exact ca sa h, client_score_exact ca sa h, h]
  · rw [server_score_eq_claim ca sa h, client_score_eq ca sa h]
    by_cases hcc : extractChineseChars (jsTrim ca) = []
    · by_cases hsc : extractChineseChars (jsTrim sa) = []
      · rcases claimFreeTextScore_no_ideographs ca sa hcc hsc with h1 | h1 | h1 <;>
          simp [h, hcc, hsc, h1]
      · simp [h, hcc, hsc]
    · simp [h, hcc]

/-- Claim C2 counterexample: on the client-side copy, two ideograph-free
answers with unequal trimmed forms score 0, not one of the punctuation-only
branch scores, because the client's `charsMatch` is false for empty
extractions. -/
theorem C2_counterexample :
    extractChineseChars ['!'] = [] ∧ extractChineseChars ['?'] = [] ∧
    jsTrim ['!'] ≠ jsTrim ['?'] ∧
    (VocabPage.calculateRuleBasedScore ['!'] ['?']).score = 0 := by decide

/-- Claim C2, amended: for ideograph-free answers with unequal trimmed forms,
the SERVER copy behaves as the claim states (its `charsMatch` is trivially
true, so only the punctuation-only branch scores 100, 75 or 50 arise, never
25 or 0), while the CLIENT copy always scores 0 on such inputs because its
`charsMatch` additionally requires a non-empty extraction. -/
theorem C2_no_ideograph_scores (ca sa : List Char)
    (hca : extractChineseChars ca = []) (hsa : extractChineseChars sa = [])
    (h : jsTrim ca ≠ jsTrim sa) :
    ((Generate.calculateRuleBasedScore ca sa).score = 100 ∨
     (Generate.calculateRuleBasedScore ca sa).score = 75 ∨
     (Generate.calculateRuleBasedScore ca sa).score = 50) ∧
    (VocabPage.calculateRuleBasedScore ca sa).score = 0 := by
  have hcc := extractChineseChars_jsTrim_nil hca
  have hsc := extractChineseChars_jsTrim_nil hsa
  constructor
  · rw [server_score_eq_claim ca sa h]
    exact claimFreeTextScore_no_ideographs ca sa hcc hsc
  · rw [client_score_eq ca sa h]
    simp [hcc, hsc]

/-- Claim C2 witness: the amended statement instantiated at `(".", ",")`. -/
theorem C2_witness :
    extractChineseChars ['.'] = [] ∧ extractChineseChars [','] = [] ∧
    jsTrim ['.'] ≠ jsTrim [','] ∧
    (((Generate.calculateRuleBasedScore ['.'] [',']).score = 100 ∨
      (Generate.calculateRuleBasedScore ['.'] [',']).score = 75 ∨
      (Generate.calculateRuleBasedScore ['.'] [',']).score = 50) ∧
     (VocabPage.calculateRuleBasedScore ['.'] [',']).score = 0) :=
  ⟨by decide, by decide, by decide,
   C2_no_ideograph_scores ['.'] [','] (by decide) (by decide) (by decide)⟩

/-- Claim C3 counterexample: on `("，", "！")` the claim's table gives 50
(ideograph extractions equal, reference has punctuation, none of it shared),
but the client-side copy scores 0 - so the table does not hold of both cited
implementations. -/
theorem C3_counterexample :
    jsTrim ['，'] ≠ jsTrim ['！'] ∧
    extractChineseChars (jsTrim ['，']) = extractChineseChars (jsTrim ['！']) ∧
    extractPunctuation (jsTrim ['，']) ≠ [] ∧
    (¬ ∃ p ∈ extractPunctuation (jsTrim ['，']), p ∈ extractPunctuation (jsTrim ['！'])) ∧
    (VocabPage.calculateRuleBasedScore ['，'] ['！']).score = 0 := by decide

/-- Claim C3, amended: for trimmed-unequal answers the server-side copy
computes exactly the claimed score table (`claimFreeTextScore`); the
client-side copy computes the same table except that it scores 0 whenever
both ideograph extractions are empty. -/
theorem C3_freeText_score_table (ca sa : List Char) (h : jsTrim ca ≠ jsTrim sa) :
    (Generate.calculateRuleBasedScore ca sa).score = claimFreeTextScore ca sa ∧
    (VocabPage.calculateRuleBasedScore ca sa).score =
      (if extractChineseChars (jsTrim ca) = [] ∧ extractChineseChars (jsTrim sa) = []
       then 0 else claimFreeTextScore ca sa) :=
  ⟨server_score_eq_claim ca sa h, client_score_eq ca sa h⟩

/-- Claim C3 witness: the amended statement instantiated at `("你", "好")`. -/
theorem C3_witness :
    jsTrim ['你'] ≠ jsTrim ['好'] ∧
    ((Generate.calculateRuleBasedScore ['你'] ['好']).score = claimFreeTextScore ['你'] ['好'] ∧
     (VocabPage.calculateRuleBasedScore ['你'] ['好']).score =
       (if extractChineseChars (jsTrim ['你']) = [] ∧ extractChineseChars (jsTrim ['好']) = []
        then 0 else claimFreeTextScore ['你'] ['好'])) :=
  ⟨by decide, C3_freeText_score_table ['你'] ['好'] (by decide)⟩

/-- Claim C4: under the Choice kind (`questionType === 'quiz'`) both
implementations trim the answers and score 100 exactly on ordinal equality
and 0 otherwise; in particular `("A", "a")` scores 0 (case-sensitive, no
partial credit). -/
theorem C4_choice_binary (ca sa : List Char) :
    (∀ q, (VocabPage.evaluateAnswer q ca sa (some "quiz")).score =
       (if jsTrim ca = jsTrim sa then 100 else 0)) ∧
    (Generate.ruleBasedResultFor ca sa (some "quiz")).score =
       (if jsTrim ca = jsTrim sa then 100 else 0) ∧
    (VocabPage.evaluateAnswer [] ['A'] ['a'] (some "quiz")).score = 0 ∧
    (Generate.ruleBasedResultFor ['A'] ['a'] (some "quiz")).score = 0 := by
  refine ⟨fun q => ?_, ?_, by decide, by decide⟩
  · simp only [VocabPage.evaluateAnswer, if_pos rfl]
    split_ifs <;> rfl
  · simp only [Generate.ruleBasedResultFor, if_pos rfl]
    split_ifs <;> rfl

/-- Claim C5: for every valid `evaluateAnswer` request, the returned score is
the rule-based score for every enhancement outcome; on enhancement failure
and on empty enhancement text the canonical rule-based feedback is returned
with a success result, and no error surfaces. -/
theorem C5_score_determined_by_rules (q ca sa : List Char) (qt : Option String)
    (ai : Generate.AiFeedback) (hq : q ≠ []) :
    (Generate.evaluateAnswerHandler (some q) (some ca) (some sa) qt ai).scoreOf =
      some (Generate.ruleBasedResultFor ca sa qt).score ∧
    Generate.evaluateAnswerHandler (some q) (some ca) (some sa) qt Generate.AiFeedback.failed =
      Generate.HandlerResult.ok (Generate.ruleBasedResultFor ca sa qt).score
        (Generate.ruleBasedResultFor ca sa qt).feedback ∧
    Generate.evaluateAnswerHandler (some q) (some ca) (some sa) qt (Generate.AiFeedback.ok "") =
      Generate.HandlerResult.ok (Generate.ruleBasedResultFor ca sa qt).score
        (Generate.ruleBasedResultFor ca sa qt).feedback := by
  refine ⟨?_, ?_, ?_⟩
  · rw [handler_ok_of_question_nonempty q ca sa qt ai hq]
    rfl
  · rw [handler_ok_of_question_nonempty q ca sa qt Generate.AiFeedback.failed hq]
    rfl
  · rw [handler_ok_of_question_nonempty q ca sa qt (Generate.AiFeedback.ok "") hq]
    rfl

/-- Claim C5 witness: the statement instantiated at a concrete request. -/
theorem C5_witness :
    (['q'] : List Char) ≠ [] ∧
    ((Generate.evaluateAnswerHandler (some ['q']) (some ['你']) (some ['们']) none
        Generate.AiFeedback.noKey).scoreOf =
      some (Generate.ruleBasedResultFor ['你'] ['们'] none).score ∧
     Generate.evaluateAnswerHandler (some ['q']) (some ['你']) (some ['们']) none
        Generate.AiFeedback.failed =
      Generate.HandlerResult.ok (Generate.ruleBasedResultFor ['你'] ['们'] none).score
        (Generate.ruleBasedResultFor ['你'] ['们'] none).feedback ∧
     Generate.evaluateAnswerHandler (some ['q']) (some ['你']) (some ['们']) none
        (Generate.AiFeedback.ok "") =
      Generate.HandlerResult.ok (Generate.ruleBasedResultFor ['你'] ['们'] none).score
        (Generate.ruleBasedResultFor ['你'] ['们'] none).feedback) :=
  ⟨by decide, C5_score_determined_by_rules ['q'] ['你'] ['们'] none
      Generate.AiFeedback.noKey (by decide)⟩

/-- Claim C6 counterexample: a request with BOTH answers present but the
question absent is rejected with a 400, so the 400 response does not occur
exactly when `correctAnswer` or `studentAnswer` is absent. -/
theorem C6_counterexample :
    Generate.evaluateAnswerHandler none (some ['a']) (some ['b']) none
        Generate.AiFeedback.failed =
      Generate.HandlerResult.clientError 400
        "Missing required parameters: question, correctAnswer, studentAnswer" ∧
    (some ['a'] : Option (List Char)) ≠ none ∧ (some ['b'] : Option (List Char)) ≠ none :=
  ⟨rfl, by decide, by decide⟩

/-- Claim C6, amended: the handler returns a 400 error exactly when the
question is absent or empty, or `correctAnswer` or `studentAnswer` is absent;
empty-string answers are valid inputs that proceed to scoring. -/
theorem C6_missing_fields_iff (question ca sa : Option (List Char)) (qt : Option String)
    (ai : Generate.AiFeedback) :
    ((∃ e, Generate.evaluateAnswerHandler question ca sa qt ai =
        Generate.HandlerResult.clientError 400 e) ↔
      (question = none ∨ question = some [] ∨ ca = none ∨ sa = none)) ∧
    (Generate.evaluateAnswerHandler (some ['q']) (some []) (some []) qt ai).scoreOf = some 100 := by
  constructor
  · unfold Generate.evaluateAnswerHandler
    by_cases hcond : question = none ∨ question = some [] ∨ ca = none ∨ sa = none
    · rw [if_pos hcond]
      simp [hcond]
    · rw [if_neg hcond]
      simp [hcond]
  · by_cases hqt : qt = some "quiz" <;>
      simp [Generate.evaluateAnswerHandler, hqt, Generate.ruleBasedResultFor,
        Generate.HandlerResult.scoreOf, server_score_exact [] [] rfl]

/-- Claim C7: for every pair of inputs and every question kind, the evaluator
returns a result whose score is one of 0, 25, 50, 75, 100 (the feedback field
is a string by construction of `EvalResult`). -/
theorem C7_score_in_range (q ca sa : List Char) (qt : Option String) :
    validScore (VocabPage.evaluateAnswer q ca sa qt).score ∧
    validScore (Generate.ruleBasedResultFor ca sa qt).score ∧
    validScore (Generate.calculateRuleBasedScore ca sa).score ∧
    validScore (VocabPage.calculateRuleBasedScore ca sa).score :=
  ⟨evaluateAnswer_validScore q ca sa qt, ruleBasedResultFor_validScore ca sa qt,
   server_validScore ca sa, client_validScore ca sa⟩

/-- Claim C8: both scorers are total over arbitrary strings - every input,
including empty strings and strings with no Chinese characters, yields a
well-formed result (a valid score and one of the finitely many canonical
feedback messages), and the empty-input case evaluates concretely. -/
theorem C8_total_over_strings (ca sa : List Char) :
    validScore (Generate.calculateRuleBasedScore ca sa).score ∧
    (Generate.calculateRuleBasedScore ca sa).feedback ∈ serverFeedbackMessages ∧
    validScore (VocabPage.calculateRuleBasedScore ca sa).score ∧
    (VocabPage.calculateRuleBasedScore ca sa).feedback ∈ clientFeedbackMessages ∧
    Generate.calculateRuleBasedScore [] [] =
      { score := 100, feedback := "Perfect! Your answer is exactly correct." } ∧
    VocabPage.calculateRuleBasedScore [] [] =
      { score := 100, feedback := "Perfect! Your answer is exactly correct." } :=
  ⟨server_validScore ca sa, server_feedback_mem ca sa,
   client_validScore ca sa, client_feedback_mem ca sa,
   server_score_exact [] [] rfl, client_score_exact [] [] rfl⟩

/-- Claim C9: the `question` parameter is context only and never influences
the numeric score - the client evaluator is literally independent of it, and
any two handler requests that pass validation yield the same score for fixed
answers and question type, for every enhancement outcome. -/
theorem C9_question_context_only :
    (∀ (q1 q2 ca sa : List Char) (qt : Option String),
      VocabPage.evaluateAnswer q1 ca sa qt = VocabPage.evaluateAnswer q2 ca sa qt) ∧
    (∀ (q1 q2 ca sa : List Char) (qt : Option String)
        (ai1 ai2 : Generate.AiFeedback), q1 ≠ [] → q2 ≠ [] →
      (Generate.evaluateAnswerHandler (some q1) (some ca) (some sa) qt ai1).scoreOf =
        (Generate.evaluateAnswerHandler (some q2) (some ca) (some sa) qt ai2).scoreOf) := by
  constructor
  · intro q1 q2 ca sa qt
    rfl
  · intro q1 q2 ca sa qt ai1 ai2 h1 h2
    rw [handler_ok_of_question_nonempty q1 ca sa qt ai1 h1,
      handler_ok_of_question_nonempty q2 ca sa qt ai2 h2]
    rfl

/-- Claim C9 witness: two different questions produce the same score. -/
theorem C9_witness :
    (['q'] : List Char) ≠ [] ∧ (['r'] : List Char) ≠ [] ∧
    (Generate.evaluateAnswerHandler (some ['q']) (some ['你']) (some ['好']) none
        Generate.AiFeedback.failed).scoreOf =
      (Generate.evaluateAnswerHandler (some ['r']) (some ['你']) (some ['好']) none
        (Generate.AiFeedback.ok "nice")).scoreOf :=
  ⟨by decide, by decide,
   C9_question_context_only.2 ['q'] ['r'] ['你'] ['好'] none
     Generate.AiFeedback.failed (Generate.AiFeedback.ok "nice") (by decide) (by decide)⟩

/-- Claim C10: binary choice scoring applies exactly when `questionType` is
the string "quiz"; every other value (absent, "choice", "Choice", ...) routes
to the graduated rule-based scorer, in both implementations. -/
theorem C10_quiz_string_gates_binary_mode :
    (∀ q ca sa, VocabPage.evaluateAnswer q ca sa (some "quiz") =
      (if jsTrim ca = jsTrim sa then ({ score := 100, feedback := "Correct! Great job!" } : EvalResult)
       else { score := 0, feedback := "Incorrect." })) ∧
    (∀ q ca sa (qt : Option String), qt ≠ some "quiz" →
      VocabPage.evaluateAnswer q ca sa qt = VocabPage.calculateRuleBasedScore ca sa) ∧
    (∀ ca sa (qt : Option String), qt ≠ some "quiz" →
      Generate.ruleBasedResultFor ca sa qt = Generate.calculateRuleBasedScore ca sa) := by
  refine ⟨fun q ca sa => ?_, fun q ca sa qt h => ?_, fun ca sa qt h => ?_⟩
  · simp [VocabPage.evaluateAnswer]
  · simp [VocabPage.evaluateAnswer, h]
  · simp [Generate.ruleBasedResultFor, h]

/-- Claim C10 witness: "choice", "Choice" and an absent question type all use
the rule-based scorer. -/
theorem C10_witness :
    (some "choice" : Option String) ≠ some "quiz" ∧
    (some "Choice" : Option String) ≠ some "quiz" ∧
    (none : Option String) ≠ some "quiz" ∧
    VocabPage.evaluateAnswer [] ['a'] ['a'] (some "choice") =
      VocabPage.calculateRuleBasedScore ['a'] ['a'] ∧
    VocabPage.evaluateAnswer [] ['a'] ['a'] (some "Choice") =
      VocabPage.calculateRuleBasedScore ['a'] ['a'] ∧
    Generate.ruleBasedResultFor ['a'] ['b'] none = Generate.calculateRuleBasedScore ['a'] ['b'] :=
  ⟨by decide, by decide, by decide,
   C10_quiz_string_gates_binary_mode.2.1 [] ['a'] ['a'] (some "choice") (by decide),
   C10_quiz_string_gates_binary_mode.2.1 [] ['a'] ['a'] (some "Choice") (by decide),
   C10_quiz_string_gates_binary_mode.2.2 ['a'] ['b'] none (by decide)⟩
